import Mathlib

/-!
Verification development for the aiBackend multi-agent pipeline
(bank-of-anthos fork, `src/aiBackend`).

Python strings are embedded as lists of Unicode code points (`List Nat`);
`pystr` converts a Lean string literal into that representation.  Pure
functions of the Python source are translated into executable Lean
definitions; stateful or externally-effectful steps (database, AI gateway)
are modelled by explicit state passing and `Except`-valued oracles.
-/

/-- Code-point list of a string literal; the embedding of a Python `str`. -/
def pystr (s : String) : List Nat := s.data.map Char.toNat

/-- Python `str.upper` on a single ASCII code point. -/
def upperc (n : Nat) : Nat := if 97 ≤ n ∧ n ≤ 122 then n - 32 else n

/-- Python `str.lower` on a single ASCII code point. -/
def lowerc (n : Nat) : Nat := if 65 ≤ n ∧ n ≤ 90 then n + 32 else n

/-- Python `str.upper`. -/
def upper (l : List Nat) : List Nat := l.map upperc

/-- Python `str.lower`. -/
def lower (l : List Nat) : List Nat := l.map lowerc

/-- Whitespace code points stripped by Python `str.strip`. -/
def isSpace (n : Nat) : Bool :=
  decide (n = 32 ∨ n = 9 ∨ n = 10 ∨ n = 13 ∨ n = 11 ∨ n = 12)

/-- Remove leading whitespace. -/
def lstrip (l : List Nat) : List Nat := l.dropWhile isSpace

/-- Remove trailing whitespace. -/
def rstrip (l : List Nat) : List Nat := (l.reverse.dropWhile isSpace).reverse

/-- Python `str.strip`. -/
def strip (l : List Nat) : List Nat := rstrip (lstrip l)

/-- Python `str.startswith`: `pfx k l` is true when `k` is a prefix of `l`. -/
def pfx : List Nat → List Nat → Bool
  | [], _ => true
  | _ :: _, [] => false
  | a :: as, b :: bs => a == b && pfx as bs

/-- Python `in` on strings: `substr k l` is true when `k` occurs
contiguously inside `l`. -/
def substr (k : List Nat) : List Nat → Bool
  | [] => k == ([] : List Nat)
  | c :: t => pfx k (c :: t) || substr k t

/-! ### Lemmas about the string embedding -/

lemma bool_eq_of_true_iff {a b : Bool} (h : a = true ↔ b = true) : a = b := by
  cases a <;> cases b <;> simp_all

lemma pfx_iff (k : List Nat) : ∀ l, pfx k l = true ↔ ∃ b, l = k ++ b := by
  induction k with
  | nil => intro l; simp [pfx]
  | cons a as ih =>
    intro l
    cases l with
    | nil => simp [pfx]
    | cons b bs =>
      simp only [pfx, Bool.and_eq_true, beq_iff_eq, ih bs]
      constructor
      · rintro ⟨rfl, c, rfl⟩; exact ⟨c, rfl⟩
      · rintro ⟨c, hc⟩
        injection hc with h1 h2
        exact ⟨h1.symm, c, h2⟩

lemma substr_iff (k : List Nat) : ∀ l, substr k l = true ↔ ∃ a b, l = a ++ k ++ b := by
  intro l
  induction l with
  | nil =>
    simp only [substr, beq_iff_eq]
    constructor
    · rintro rfl; exact ⟨[], [], rfl⟩
    · rintro ⟨a, b, hab⟩
      rcases List.append_eq_nil.mp hab.symm with ⟨h1, h2⟩
      rcases List.append_eq_nil.mp h1 with ⟨-, h3⟩
      exact h3
  | cons c t ih =>
    simp only [substr, Bool.or_eq_true, pfx_iff, ih]
    constructor
    · rintro (⟨b, hb⟩ | ⟨a, b, hab⟩)
      · exact ⟨[], b, by simp [hb]⟩
      · exact ⟨c :: a, b, by simp [hab]⟩
    · rintro ⟨a, b, hab⟩
      cases a with
      | nil => exact Or.inl ⟨b, by simpa using hab⟩
      | cons c0 a' =>
        injection hab with h1 h2
        exact Or.inr ⟨a', b, h2⟩

lemma substr_cons_space (k : List Nat) (hk : k ≠ [])
    (hw : ∀ n ∈ k, isSpace n = false) (c : Nat) (hc : isSpace c = true)
    (t : List Nat) : substr k (c :: t) = substr k t := by
  cases k with
  | nil => exact absurd rfl hk
  | cons k0 ks =>
    have h0 : isSpace k0 = false := hw k0 (by simp)
    have hne : (k0 == c) = false := by
      rw [beq_eq_false_iff_ne]
      rintro rfl
      rw [h0] at hc
      exact Bool.false_ne_true hc
    show (pfx (k0 :: ks) (c :: t) || substr (k0 :: ks) t) = substr (k0 :: ks) t
    simp [pfx, hne]

lemma substr_lstrip (k : List Nat) (hk : k ≠ [])
    (hw : ∀ n ∈ k, isSpace n = false) :
    ∀ l, substr k (lstrip l) = substr k l := by
  intro l
  induction l with
  | nil => rfl
  | cons c t ih =>
    by_cases hc : isSpace c = true
    · rw [lstrip, List.dropWhile_cons_of_pos hc, substr_cons_space k hk hw c hc t]
      exact ih
    · rw [lstrip, List.dropWhile_cons_of_neg hc]

lemma substr_reverse (k l : List Nat) :
    substr k.reverse l.reverse = substr k l := by
  apply bool_eq_of_true_iff
  rw [substr_iff, substr_iff]
  constructor
  · rintro ⟨a, b, hab⟩
    refine ⟨b.reverse, a.reverse, ?_⟩
    have := congrArg List.reverse hab
    simpa [List.reverse_append] using this
  · rintro ⟨a, b, rfl⟩
    exact ⟨b.reverse, a.reverse, by simp [List.reverse_append]⟩

lemma substr_rstrip (k : List Nat) (hk : k ≠ [])
    (hw : ∀ n ∈ k, isSpace n = false) (l : List Nat) :
    substr k (rstrip l) = substr k l := by
  have hk' : k.reverse ≠ [] := by
    simpa using hk
  have hw' : ∀ n ∈ k.reverse, isSpace n = false := by
    intro n hn; exact hw n (List.mem_reverse.mp hn)
  calc substr k (rstrip l)
      = substr k.reverse (rstrip l).reverse := (substr_reverse k (rstrip l)).symm
    _ = substr k.reverse (lstrip l.reverse) := by
        rw [rstrip, List.reverse_reverse]; rfl
    _ = substr k.reverse l.reverse := substr_lstrip k.reverse hk' hw' l.reverse
    _ = substr k l := substr_reverse k l

lemma substr_strip (k : List Nat) (hk : k ≠ [])
    (hw : ∀ n ∈ k, isSpace n = false) (l : List Nat) :
    substr k (strip l) = substr k l := by
  rw [strip, substr_rstrip k hk hw, substr_lstrip k hk hw]

lemma isSpace_upperc (n : Nat) : isSpace (upperc n) = isSpace n := by
  unfold upperc
  split
  · next h =>
    simp only [isSpace, decide_eq_decide]
    omega
  · rfl

lemma lstrip_upper (l : List Nat) : lstrip (upper l) = upper (lstrip l) := by
  induction l with
  | nil => rfl
  | cons c t ih =>
    by_cases hc : isSpace c = true
    · have hc' : isSpace (upperc c) = true := by rw [isSpace_upperc]; exact hc
      rw [upper, List.map_cons, lstrip, List.dropWhile_cons_of_pos hc']
      rw [lstrip, List.dropWhile_cons_of_pos hc]
      exact ih
    · have hc' : ¬ isSpace (upperc c) = true := by rw [isSpace_upperc]; exact hc
      rw [upper, List.map_cons, lstrip, List.dropWhile_cons_of_neg hc']
      rw [lstrip, List.dropWhile_cons_of_neg hc, upper, List.map_cons]

lemma upper_reverse (l : List Nat) : (upper l).reverse = upper l.reverse := by
  simp [upper, List.map_reverse]

lemma rstrip_upper (l : List Nat) : rstrip (upper l) = upper (rstrip l) := by
  rw [rstrip, upper_reverse]
  show (lstrip (upper l.reverse)).reverse = upper (rstrip l)
  rw [lstrip_upper, upper_reverse]
  rfl

lemma strip_upper (l : List Nat) : strip (upper l) = upper (strip l) := by
  rw [strip, lstrip_upper, rstrip_upper]; rfl

/-! ### SQL validation (`DataAnalystAgent._validate_sql_query`) -/

/-- The forbidden keywords checked by `_validate_sql_query`. -/
def dangerousKeywords : List (List Nat) :=
  [pystr "DROP", pystr "DELETE", pystr "UPDATE", pystr "INSERT", pystr "ALTER"]

/-- Model of `any(keyword in q for keyword in ["DROP", ...])` on an uppercased query. -/
def hasDangerous (l : List Nat) : Bool :=
  dangerousKeywords.any (fun k => substr k l)

/-- Model of `_validate_sql_query`: strip, require a `SELECT` start (case-insensitive),
reject dangerous keywords, otherwise return the stripped query. -/
def validateSqlQuery (sqlQuery : List Nat) : Option (List Nat) :=
  let sq := strip sqlQuery
  if pfx (pystr "SELECT") (upper sq) then
    if hasDangerous (upper sq) then none else some sq
  else none

lemma substr_upper_strip (k : List Nat) (hk : k ≠ [])
    (hw : ∀ n ∈ k, isSpace n = false) (s : List Nat) :
    substr k (upper (strip s)) = substr k (upper s) := by
  rw [← strip_upper, substr_strip k hk hw]

lemma hasDangerous_upper_strip (s : List Nat) :
    hasDangerous (upper (strip s)) = hasDangerous (upper s) := by
  simp only [hasDangerous, dangerousKeywords, List.any_cons, List.any_nil]
  rw [substr_upper_strip (pystr "DROP") (by decide) (by decide) s,
      substr_upper_strip (pystr "DELETE") (by decide) (by decide) s,
      substr_upper_strip (pystr "UPDATE") (by decide) (by decide) s,
      substr_upper_strip (pystr "INSERT") (by decide) (by decide) s,
      substr_upper_strip (pystr "ALTER") (by decide) (by decide) s]

/-- C1: SQL validation returns `none` when the trimmed input does not start
with `SELECT` case-insensitively, returns `none` when the input contains a
dangerous keyword (`DROP`, `DELETE`, `UPDATE`, `INSERT`, `ALTER`)
case-insensitively anywhere, and otherwise accepts the input unchanged
modulo trimming of surrounding whitespace. -/
theorem validateSql_spec : ∀ s : List Nat,
    (pfx (pystr "SELECT") (upper (strip s)) = false → validateSqlQuery s = none)
  ∧ (hasDangerous (upper s) = true → validateSqlQuery s = none)
  ∧ (pfx (pystr "SELECT") (upper (strip s)) = true →
       hasDangerous (upper s) = false →
       validateSqlQuery s = some (strip s)) := by
  intro s
  refine ⟨?_, ?_, ?_⟩
  · intro h
    simp [validateSqlQuery, h]
  · intro h
    have hd : hasDangerous (upper (strip s)) = true := by
      rw [hasDangerous_upper_strip]; exact h
    by_cases hsel : pfx (pystr "SELECT") (upper (strip s)) = true
    · simp [validateSqlQuery, hsel, hd]
    · simp [validateSqlQuery, Bool.eq_false_iff.mpr hsel]
  · intro h1 h2
    have hd : hasDangerous (upper (strip s)) = false := by
      rw [hasDangerous_upper_strip]; exact h2
    simp [validateSqlQuery, h1, hd]

/-- A concrete well-formed query accepted by validation. -/
def sqlWitnessInput : List Nat :=
  pystr "  SELECT amount FROM transactions WHERE amount > 100  "

/-- Witness for C1 at a concrete `SELECT ... FROM transactions WHERE ...`. -/
theorem validateSql_spec_witness :
    pfx (pystr "SELECT") (upper (strip sqlWitnessInput)) = true
  ∧ hasDangerous (upper sqlWitnessInput) = false
  ∧ validateSqlQuery sqlWitnessInput
      = some (pystr "SELECT amount FROM transactions WHERE amount > 100") := by
  refine ⟨by decide, by decide, ?_⟩
  have h := (validateSql_spec sqlWitnessInput).2.2 (by decide) (by decide)
  rw [h]
  decide

/-! ### Query understanding (`QueryUnderstandingAgent`) -/

/-- Ordered `time_patterns` table of `QueryUnderstandingAgent.__init__`. -/
def timePatterns : List (List Nat × Nat) :=
  [(pystr "today", 0), (pystr "yesterday", 1), (pystr "this week", 7),
   (pystr "last week", 14), (pystr "this month", 30), (pystr "last month", 60),
   (pystr "this year", 365), (pystr "last year", 730)]

/-- Ordered `category_keywords` table of `QueryUnderstandingAgent.__init__`. -/
def categoryKeywordsQU : List (String × List (List Nat)) :=
  [("food", [pystr "food", pystr "restaurant", pystr "dining", pystr "coffee",
             pystr "lunch", pystr "dinner", pystr "grocery"]),
   ("entertainment", [pystr "movie", pystr "game", pystr "entertainment",
             pystr "netflix", pystr "spotify", pystr "subscription"]),
   ("transportation", [pystr "gas", pystr "fuel", pystr "uber", pystr "lyft",
             pystr "taxi", pystr "transport", pystr "parking"]),
   ("shopping", [pystr "amazon", pystr "store", pystr "shopping",
             pystr "retail", pystr "clothes", pystr "clothing"]),
   ("utilities", [pystr "electric", pystr "water", pystr "internet",
             pystr "phone", pystr "utility", pystr "bill"]),
   ("healthcare", [pystr "doctor", pystr "pharmacy", pystr "medical",
             pystr "health", pystr "hospital"]),
   ("education", [pystr "school", pystr "university", pystr "course",
             pystr "book", pystr "education", pystr "learning"])]

/-- Rule-based fallback of `_determine_analysis_type`. -/
def determineAnalysisTypeRules (q : List Nat) : String :=
  if [pystr "trend", pystr "over time", pystr "change", pystr "increase",
      pystr "decrease"].any (fun w => substr w q) then "spending_trends"
  else if [pystr "category", pystr "breakdown", pystr "spend on",
      pystr "where"].any (fun w => substr w q) then "category_analysis"
  else if [pystr "improve", pystr "better", pystr "worse", pystr "progress",
      pystr "doing"].any (fun w => substr w q) then "improvement"
  else "general"

/-- Rule-based fallback of `_extract_time_period`: first literal substring
match in the ordered table, spaces replaced by underscores, default
`"this_month"`. -/
def extractTimePeriodRules (q : List Nat) : List Nat :=
  match timePatterns.find? (fun p => substr p.1 q) with
  | some p => p.1.map (fun n => if n = 32 then 95 else n)
  | none => pystr "this_month"

/-- Rule-based fallback of `_extract_categories`. -/
def extractCategoriesRules (q : List Nat) : List String :=
  (categoryKeywordsQU.filter (fun c => c.2.any (fun k => substr k q))).map (·.1)

/-- Rule-based fallback of `_needs_visualization`. -/
def needsVisualizationRules (q : List Nat) : Bool :=
  [pystr "chart", pystr "graph", pystr "visual", pystr "show", pystr "plot",
   pystr "display"].any (fun k => substr k q)

/-- Rule-based fallback of `_determine_priority`. -/
def determinePriorityRules (q : List Nat) : Nat :=
  if [pystr "urgent", pystr "important", pystr "asap", pystr "quickly",
      pystr "immediately"].any (fun k => substr k q) then 5 else 3

/-- A parsed AI-gateway response used by `understand_query`; each field is
`none` when the corresponding key is missing from the AI JSON. -/
structure AIUnderstanding where
  analysisTypeF : Option String := none
  timePeriodF : Option (List Nat) := none
  categoriesF : Option (List String) := none
  needsVisualizationF : Option Bool := none
  priorityF : Option Nat := none
  confidenceF : Option ℚ := none
deriving DecidableEq

/-- The intent record built by `understand_query`. -/
structure QueryIntent where
  originalQuery : List Nat
  analysisType : String
  timePeriod : List Nat
  categories : List String
  needsVisualization : Bool
  priority : Nat
  confidence : ℚ
deriving DecidableEq

/-- Model of `understand_query`: combine the (possibly absent) AI understanding with
the rule-based fallbacks; `aiResult = none` models the AI gateway returning
no result. -/
def understandQuery (aiResult : Option AIUnderstanding) (query : List Nat) :
    Option QueryIntent :=
  let queryLower := strip (lower query)
  some {
    originalQuery := query
    analysisType :=
      match aiResult with
      | some a => a.analysisTypeF.getD (determineAnalysisTypeRules queryLower)
      | none => determineAnalysisTypeRules queryLower
    timePeriod :=
      match aiResult with
      | some a => a.timePeriodF.getD (extractTimePeriodRules queryLower)
      | none => extractTimePeriodRules queryLower
    categories :=
      match aiResult with
      | some a => a.categoriesF.getD (extractCategoriesRules queryLower)
      | none => extractCategoriesRules queryLower
    needsVisualization :=
      match aiResult with
      | some a => a.needsVisualizationF.getD (needsVisualizationRules queryLower)
      | none => needsVisualizationRules queryLower
    priority :=
      match aiResult with
      | some a => a.priorityF.getD (determinePriorityRules queryLower)
      | none => determinePriorityRules queryLower
    confidence :=
      match aiResult with
      | some a => a.confidenceF.getD (8 / 10 : ℚ)
      | none => (7 / 10 : ℚ) }

/-- The concrete query of the spec's fallback example. -/
def coffeeQuery : List Nat := pystr "Show me my coffee spending this month"

/-- C3 counterexample: on the concrete query "Show me my coffee spending
this month" with no AI result, `needs_visualization` is `true` (the
visualization keyword "show" is a substring of the lowercased query), not
`false` as the claim states. -/
theorem queryFallback_counterexample :
    (understandQuery none coffeeQuery).map QueryIntent.needsVisualization
      = some true := by
  decide

/-- C3 (amended): with no AI result, `understand_query` always returns a
non-null intent built from the deterministic fallback rules with confidence
0.7; for the concrete query "Show me my coffee spending this month" the
categories contain "food", the time period is "this_month", and
`needs_visualization` is `true` (via the "show" keyword). -/
theorem queryFallback_spec :
    (∀ q, understandQuery none q = some {
        originalQuery := q
        analysisType := determineAnalysisTypeRules (strip (lower q))
        timePeriod := extractTimePeriodRules (strip (lower q))
        categories := extractCategoriesRules (strip (lower q))
        needsVisualization := needsVisualizationRules (strip (lower q))
        priority := determinePriorityRules (strip (lower q))
        confidence := (7 / 10 : ℚ) })
  ∧ ((understandQuery none coffeeQuery).map QueryIntent.categories
        = some ["food"]
     ∧ (understandQuery none coffeeQuery).map QueryIntent.timePeriod
        = some (pystr "this_month")
     ∧ (understandQuery none coffeeQuery).map QueryIntent.needsVisualization
        = some true
     ∧ (understandQuery none coffeeQuery).map QueryIntent.confidence
        = some (7 / 10 : ℚ)) := by
  refine ⟨fun q => rfl, by decide, by decide, by decide, ?_⟩
  have h : understandQuery none coffeeQuery
      = some {
        originalQuery := coffeeQuery
        analysisType := determineAnalysisTypeRules (strip (lower coffeeQuery))
        timePeriod := extractTimePeriodRules (strip (lower coffeeQuery))
        categories := extractCategoriesRules (strip (lower coffeeQuery))
        needsVisualization := needsVisualizationRules (strip (lower coffeeQuery))
        priority := determinePriorityRules (strip (lower coffeeQuery))
        confidence := (7 / 10 : ℚ) } := rfl
  rw [h]
  rfl

/-! ### Amount buckets (`analyze_spending_categories` and the canned
`get_spending_by_category` SQL CASE expression) -/

/-- Bucket label assigned by the canned SQL `CASE` expression in
`get_spending_by_category`. -/
def bucketLabelSql (amount : ℚ) : String :=
  if amount < 50 then "Small purchases"
  else if amount < 200 then "Medium purchases"
  else if amount < 500 then "Large purchases"
  else "Very large purchases"

/-- Bucket key used by `analyze_spending_categories` when accumulating. -/
def bucketLabelInsight (amount : ℚ) : String :=
  if amount < 50 then "Small purchases (<$50)"
  else if amount < 200 then "Medium purchases ($50-$200)"
  else if amount < 500 then "Large purchases ($200-$500)"
  else "Very large purchases (>$500)"

/-- Renaming between the two bucket label families. -/
def insightLabelOf (l : String) : String :=
  if l = "Small purchases" then "Small purchases (<$50)"
  else if l = "Medium purchases" then "Medium purchases ($50-$200)"
  else if l = "Large purchases" then "Large purchases ($200-$500)"
  else "Very large purchases (>$500)"

/-- C4: bucketing is a total function of the amount with thresholds 50, 200,
500 shared by the insight analysis and the canned SQL query; every amount
falls in exactly one bucket. -/
theorem bucket_spec : ∀ a : ℚ,
    (a < 50 → bucketLabelSql a = "Small purchases")
  ∧ (50 ≤ a → a < 200 → bucketLabelSql a = "Medium purchases")
  ∧ (200 ≤ a → a < 500 → bucketLabelSql a = "Large purchases")
  ∧ (500 ≤ a → bucketLabelSql a = "Very large purchases")
  ∧ (a < 50 ∨ (50 ≤ a ∧ a < 200) ∨ (200 ≤ a ∧ a < 500) ∨ 500 ≤ a)
  ∧ (¬(a < 50 ∧ 50 ≤ a) ∧ ¬(a < 200 ∧ 200 ≤ a) ∧ ¬(a < 500 ∧ 500 ≤ a))
  ∧ bucketLabelInsight a = insightLabelOf (bucketLabelSql a) := by
  intro a
  refine ⟨?_, ?_, ?_, ?_, ?_, ⟨?_, ?_, ?_⟩, ?_⟩
  · intro h; simp [bucketLabelSql, h]
  · intro h1 h2; simp [bucketLabelSql, not_lt.mpr h1, h2]
  · intro h1 h2
    simp [bucketLabelSql, not_lt.mpr h1, h2, not_lt.mpr (by linarith : (50:ℚ) ≤ a)]
  · intro h
    simp [bucketLabelSql, not_lt.mpr h, not_lt.mpr (by linarith : (50:ℚ) ≤ a),
      not_lt.mpr (by linarith : (200:ℚ) ≤ a)]
  · by_cases h1 : a < 50
    · exact Or.inl h1
    · by_cases h2 : a < 200
      · exact Or.inr (Or.inl ⟨not_lt.mp h1, h2⟩)
      · by_cases h3 : a < 500
        · exact Or.inr (Or.inr (Or.inl ⟨not_lt.mp h2, h3⟩))
        · exact Or.inr (Or.inr (Or.inr (not_lt.mp h3)))
  · rintro ⟨h1, h2⟩; exact absurd h1 (not_lt.mpr h2)
  · rintro ⟨h1, h2⟩; exact absurd h1 (not_lt.mpr h2)
  · rintro ⟨h1, h2⟩; exact absurd h1 (not_lt.mpr h2)
  · unfold bucketLabelSql bucketLabelInsight insightLabelOf
    split
    · rfl
    · split
      · rfl
      · split
        · rfl
        · rfl

/-- Witness for C4 at amount 100 (a medium purchase). -/
theorem bucket_spec_witness :
    ((50 : ℚ) ≤ 100 ∧ (100 : ℚ) < 200)
  ∧ bucketLabelSql 100 = "Medium purchases" := by
  refine ⟨⟨by norm_num, by norm_num⟩, ?_⟩
  exact (bucket_spec 100).2.1 (by norm_num) (by norm_num)

/-! ### Transactions -/

/-- A transaction record as consumed by the agents: `amount` defaults to 0
via `t.get("amount", 0)`, `timestamp` is an epoch-seconds instant, and
`description` models `t.get("description", "")` (`none` = field absent,
as for rows of the ledger `transactions` schema). -/
structure Txn where
  amount : ℚ := 0
  timestamp : Int := 0
  description : Option (List Nat) := none
deriving DecidableEq

/-- Model of `sum(t.get("amount", 0) for t in l)`. -/
def amountsSum (l : List Txn) : ℚ := (l.map Txn.amount).sum

/-! ### Improvement analysis (`InsightGeneratorAgent.analyze_improvements`) -/

/-- The analysis payload plus the `priority` of the returned insight dict. -/
structure ImprovementData where
  recentTotal : ℚ
  olderTotal : ℚ
  recentAvg : ℚ
  olderAvg : ℚ
  improvementPercentage : ℚ
  isImprovement : Bool
  trendDirection : String
  priority : Nat
deriving DecidableEq

/-- Model of `recent_transactions = transactions[:mid_point]`. -/
def recentHalf (txns : List Txn) : List Txn := txns.take (txns.length / 2)

/-- Model of `older_transactions = transactions[mid_point:]`. -/
def olderHalf (txns : List Txn) : List Txn := txns.drop (txns.length / 2)

/-- Model of `recent_total / len(recent_transactions) if recent_transactions else 0`. -/
def recentAvgOf (txns : List Txn) : ℚ :=
  if (recentHalf txns).isEmpty then 0
  else amountsSum (recentHalf txns) / ((recentHalf txns).length : ℚ)

/-- Model of `older_total / len(older_transactions) if older_transactions else 0`. -/
def olderAvgOf (txns : List Txn) : ℚ :=
  if (olderHalf txns).isEmpty then 0
  else amountsSum (olderHalf txns) / ((olderHalf txns).length : ℚ)

/-- Model of `((older_avg - recent_avg) / older_avg) * 100 if older_avg > 0 else 0`. -/
def improvementPctOf (txns : List Txn) : ℚ :=
  if 0 < olderAvgOf txns then
    (olderAvgOf txns - recentAvgOf txns) / olderAvgOf txns * 100
  else 0

/-- Model of `analyze_improvements`: needs at least 10 transactions, splits at the
midpoint into recent (first half) and older (second half), and compares the
period averages. -/
def analyzeImprovements (transactions : List Txn) : Option ImprovementData :=
  if transactions.length < 10 then none
  else
    some {
      recentTotal := amountsSum (recentHalf transactions)
      olderTotal := amountsSum (olderHalf transactions)
      recentAvg := recentAvgOf transactions
      olderAvg := olderAvgOf transactions
      improvementPercentage := improvementPctOf transactions
      isImprovement := decide (5 < improvementPctOf transactions)
      trendDirection :=
        if decide (5 < improvementPctOf transactions) then "decreased" else "increased"
      priority := if decide (5 < improvementPctOf transactions) then 3 else 2 }

lemma isEmpty_false_of_length_pos {α : Type} {l : List α} (h : 0 < l.length) :
    l.isEmpty = false := by
  cases l with
  | nil => simp at h
  | cons a t => rfl

/-- 10 transactions: recent first five of amount 40, older last five of
amount 100. -/
def exImpTxns : List Txn :=
  List.replicate 5 ({ amount := 40 } : Txn)
    ++ List.replicate 5 ({ amount := 100 } : Txn)

/-- C5: for ≥ 10 transactions the improvement analysis splits at the
midpoint into recent first half and older second half, computes
improvement_percentage = (olderAvg − recentAvg)/olderAvg·100 when
olderAvg > 0 and 0 when olderAvg = 0, classifies is_improvement exactly
when the percentage exceeds 5, direction "decreased"/"increased", priority
3/2; the 40-vs-100 example yields 60 %, improvement, "decreased". -/
theorem improvement_spec :
    (∀ txns : List Txn, 10 ≤ txns.length →
      ∃ d, analyzeImprovements txns = some d
        ∧ d.recentAvg
            = amountsSum (txns.take (txns.length / 2))
              / ((txns.length / 2 : Nat) : ℚ)
        ∧ d.olderAvg
            = amountsSum (txns.drop (txns.length / 2))
              / ((txns.length - txns.length / 2 : Nat) : ℚ)
        ∧ (0 < d.olderAvg →
            d.improvementPercentage = (d.olderAvg - d.recentAvg) / d.olderAvg * 100)
        ∧ (d.olderAvg = 0 → d.improvementPercentage = 0)
        ∧ d.isImprovement = decide (5 < d.improvementPercentage)
        ∧ d.trendDirection = (if d.isImprovement then "decreased" else "increased")
        ∧ d.priority = (if d.isImprovement then 3 else 2))
  ∧ analyzeImprovements exImpTxns = some {
      recentTotal := 200
      olderTotal := 500
      recentAvg := 40
      olderAvg := 100
      improvementPercentage := 60
      isImprovement := true
      trendDirection := "decreased"
      priority := 3 } := by
  constructor
  · intro txns hlen
    have hnot : ¬ txns.length < 10 := by omega
    have hrec : (recentHalf txns).isEmpty = false :=
      isEmpty_false_of_length_pos (by rw [recentHalf, List.length_take]; omega)
    have hold : (olderHalf txns).isEmpty = false :=
      isEmpty_false_of_length_pos (by rw [olderHalf, List.length_drop]; omega)
    refine ⟨_, by rw [analyzeImprovements, if_neg hnot], ?_, ?_, ?_, ?_, rfl, rfl, rfl⟩
    · show recentAvgOf txns = _
      rw [recentAvgOf, if_neg (by rw [hrec]; exact Bool.false_ne_true)]
      rw [recentHalf, List.length_take]
      have hmin : min (txns.length / 2) txns.length = txns.length / 2 := by omega
      rw [hmin]
    · show olderAvgOf txns = _
      rw [olderAvgOf, if_neg (by rw [hold]; exact Bool.false_ne_true)]
      rw [olderHalf, List.length_drop]
    · intro h
      have h' : 0 < olderAvgOf txns := h
      show improvementPctOf txns = _
      rw [improvementPctOf, if_pos h']
    · intro h
      have h' : olderAvgOf txns = 0 := h
      show improvementPctOf txns = 0
      rw [improvementPctOf, if_neg (by rw [h']; exact lt_irrefl 0)]
  · have hnot : ¬ exImpTxns.length < 10 := by decide
    have h1 : recentHalf exImpTxns = List.replicate 5 ({ amount := 40 } : Txn) := rfl
    have h2 : olderHalf exImpTxns = List.replicate 5 ({ amount := 100 } : Txn) := rfl
    have h3 : amountsSum (recentHalf exImpTxns) = 200 := by
      rw [h1, amountsSum, List.map_replicate, List.sum_replicate]
      norm_num
    have h4 : amountsSum (olderHalf exImpTxns) = 500 := by
      rw [h2, amountsSum, List.map_replicate, List.sum_replicate]
      norm_num
    have h5 : recentAvgOf exImpTxns = 40 := by
      rw [recentAvgOf, if_neg (by rw [h1]; exact Bool.false_ne_true), h3, h1]
      norm_num
    have h6 : olderAvgOf exImpTxns = 100 := by
      rw [olderAvgOf, if_neg (by rw [h2]; exact Bool.false_ne_true), h4, h2]
      norm_num
    have h7 : improvementPctOf exImpTxns = 60 := by
      rw [improvementPctOf, if_pos (by rw [h6]; norm_num), h5, h6]
      norm_num
    rw [analyzeImprovements, if_neg hnot, h3, h4, h5, h6, h7]
    norm_num

/-- Witness for C5: the universal part applied to the concrete example. -/
theorem improvement_spec_witness :
    10 ≤ exImpTxns.length
  ∧ (∃ d, analyzeImprovements exImpTxns = some d
      ∧ d.recentAvg
          = amountsSum (exImpTxns.take (exImpTxns.length / 2))
            / ((exImpTxns.length / 2 : Nat) : ℚ)
      ∧ d.olderAvg
          = amountsSum (exImpTxns.drop (exImpTxns.length / 2))
            / ((exImpTxns.length - exImpTxns.length / 2 : Nat) : ℚ)
      ∧ (0 < d.olderAvg →
          d.improvementPercentage = (d.olderAvg - d.recentAvg) / d.olderAvg * 100)
      ∧ (d.olderAvg = 0 → d.improvementPercentage = 0)
      ∧ d.isImprovement = decide (5 < d.improvementPercentage)
      ∧ d.trendDirection = (if d.isImprovement then "decreased" else "increased")
      ∧ d.priority = (if d.isImprovement then 3 else 2)) :=
  ⟨by decide, improvement_spec.1 exImpTxns (by decide)⟩
/-! ### Orchestrator ad-hoc query workflow (`OrchestratorAgent.process_user_query`) -/

/-- Pipeline stages of `process_user_query`, in order. -/
inductive Stage where
  | understandQ
  | prefs
  | genSql
  | execQ
  | insightsS
  | vizS
  | logi
deriving DecidableEq

/-- The dictionary returned by `process_user_query`; absent keys are `none`. -/
structure QueryResult where
  success : Bool
  error : Option String := none
  queryIntent : Option QueryIntent := none
  data : Option (List Nat) := none
  insights : Option (List Nat) := none
  visualizations : Option (List Nat) := none
deriving DecidableEq

/-- Outcomes of the sub-agent calls in one run of `process_user_query`;
`Except.error ()` models an exception escaping that call (to be caught by
the orchestrator's top-level handler). Rows, insights and visualizations
are opaque tokens. -/
structure OrchEnv where
  understandR : Except Unit (Option QueryIntent)
  prefsR : Except Unit Nat
  generateSqlR : Except Unit (Option (List Nat))
  executeR : Except Unit (List Nat)
  insightsR : Except Unit (List Nat)
  vizR : Except Unit (List Nat)
  logR : Except Unit Nat

/-- The generic failure response of the top-level exception handler. -/
def genericFailure : QueryResult :=
  { success := false
    error := some "An error occurred while processing your query. Please try again." }

/-- Model of `process_user_query`: the staged pipeline together with the list of
stages actually entered during the run. -/
def processUserQuery (env : OrchEnv) : QueryResult × List Stage :=
  match env.understandR with
  | .error _ => (genericFailure, [Stage.understandQ])
  | .ok none =>
    ({ success := false
       error := some "Could not understand your query. Please try rephrasing it." },
     [Stage.understandQ])
  | .ok (some intent) =>
    match env.prefsR with
    | .error _ => (genericFailure, [Stage.understandQ, Stage.prefs])
    | .ok _ =>
      match env.generateSqlR with
      | .error _ => (genericFailure, [Stage.understandQ, Stage.prefs, Stage.genSql])
      | .ok none =>
        ({ success := false
           error := some "Could not generate appropriate query for your request." },
         [Stage.understandQ, Stage.prefs, Stage.genSql])
      | .ok (some _) =>
        match env.executeR with
        | .error _ =>
          (genericFailure,
           [Stage.understandQ, Stage.prefs, Stage.genSql, Stage.execQ])
        | .ok data =>
          if data.isEmpty then
            ({ success := false, error := some "No data found for your query." },
             [Stage.understandQ, Stage.prefs, Stage.genSql, Stage.execQ])
          else
            match env.insightsR with
            | .error _ =>
              (genericFailure,
               [Stage.understandQ, Stage.prefs, Stage.genSql, Stage.execQ,
                Stage.insightsS])
            | .ok insights =>
              if intent.needsVisualization then
                match env.vizR with
                | .error _ =>
                  (genericFailure,
                   [Stage.understandQ, Stage.prefs, Stage.genSql, Stage.execQ,
                    Stage.insightsS, Stage.vizS])
                | .ok viz =>
                  match env.logR with
                  | .error _ =>
                    (genericFailure,
                     [Stage.understandQ, Stage.prefs, Stage.genSql, Stage.execQ,
                      Stage.insightsS, Stage.vizS, Stage.logi])
                  | .ok _ =>
                    ({ success := true
                       queryIntent := some intent
                       data := some data
                       insights := some insights
                       visualizations := some viz },
                     [Stage.understandQ, Stage.prefs, Stage.genSql, Stage.execQ,
                      Stage.insightsS, Stage.vizS, Stage.logi])
              else
                match env.logR with
                | .error _ =>
                  (genericFailure,
                   [Stage.understandQ, Stage.prefs, Stage.genSql, Stage.execQ,
                    Stage.insightsS, Stage.logi])
                | .ok _ =>
                  ({ success := true
                     queryIntent := some intent
                     data := some data
                     insights := some insights
                     visualizations := some [] },
                   [Stage.understandQ, Stage.prefs, Stage.genSql, Stage.execQ,
                    Stage.insightsS, Stage.logi])

/-- C2: when SQL generation yields null the workflow answers exactly
{success: false, error: "Could not generate appropriate query for your
request."} and no later stage runs; and every non-success result carries no
data, insights, or visualizations. -/
theorem orchestration_spec :
    (∀ env : OrchEnv, ∀ i p,
      env.understandR = Except.ok (some i) →
      env.prefsR = Except.ok p →
      env.generateSqlR = Except.ok none →
      processUserQuery env =
        ({ success := false
           error := some "Could not generate appropriate query for your request." },
         [Stage.understandQ, Stage.prefs, Stage.genSql]))
  ∧ (∀ env : OrchEnv, (processUserQuery env).1.success = false →
      (processUserQuery env).1.data = none
      ∧ (processUserQuery env).1.insights = none
      ∧ (processUserQuery env).1.visualizations = none) := by
  constructor
  · intro env i p hu hp hg
    rw [processUserQuery, hu, hp, hg]
  · intro env hfail
    rcases env with ⟨u, p, g, e, ins, v, lg⟩
    rcases u with _ | u
    · exact ⟨rfl, rfl, rfl⟩
    · rcases u with _ | intent
      · exact ⟨rfl, rfl, rfl⟩
      rcases intent with ⟨oq, aty, tp, cats, nv, pr, cf⟩
      rcases p with _ | p
      · exact ⟨rfl, rfl, rfl⟩
      rcases g with _ | g
      · exact ⟨rfl, rfl, rfl⟩
      rcases g with _ | sql
      · exact ⟨rfl, rfl, rfl⟩
      rcases e with _ | data
      · exact ⟨rfl, rfl, rfl⟩
      cases data with
      | nil => exact ⟨rfl, rfl, rfl⟩
      | cons d ds =>
        rcases ins with _ | insights
        · exact ⟨rfl, rfl, rfl⟩
        cases nv with
        | false =>
          rcases lg with _ | lg
          · exact ⟨rfl, rfl, rfl⟩
          · exact Bool.noConfusion hfail
        | true =>
          rcases v with _ | viz
          · exact ⟨rfl, rfl, rfl⟩
          rcases lg with _ | lg
          · exact ⟨rfl, rfl, rfl⟩
          · exact Bool.noConfusion hfail

/-- A concrete intent used by the C2 witness environment. -/
def witnessIntent : QueryIntent :=
  { originalQuery := pystr "q"
    analysisType := "general"
    timePeriod := pystr "this_month"
    categories := []
    needsVisualization := false
    priority := 3
    confidence := (7 / 10 : ℚ) }

/-- Witness for C2: a concrete run whose SQL generation returns null. -/
theorem orchestration_spec_witness :
    processUserQuery
      { understandR := Except.ok (some witnessIntent)
        prefsR := Except.ok 0
        generateSqlR := Except.ok none
        executeR := Except.ok []
        insightsR := Except.ok []
        vizR := Except.ok []
        logR := Except.ok 0 } =
      ({ success := false
         error := some "Could not generate appropriate query for your request." },
       [Stage.understandQ, Stage.prefs, Stage.genSql]) :=
  orchestration_spec.1
    { understandR := Except.ok (some witnessIntent)
      prefsR := Except.ok 0
      generateSqlR := Except.ok none
      executeR := Except.ok []
      insightsR := Except.ok []
      vizR := Except.ok []
      logR := Except.ok 0 }
    witnessIntent 0 rfl rfl rfl
/-! ### Alerts (`AlertNotificationAgent`) -/

/-- The wall clock of one `check_alerts` run: `datetime.now()` and the
result of `now.replace(hour=0, minute=0, second=0, microsecond=0)`, in
epoch seconds. -/
structure Clock where
  now : Int
  startOfDay : Int
deriving DecidableEq

/-- An active row of `alert_configurations`. -/
structure AlertConfig where
  id : Nat
  alertType : String
  alertName : List Nat
  thresholdValue : ℚ
  thresholdPeriod : List Nat
deriving DecidableEq

/-- An alert dict produced by one of the checks; unused keys are `none`. -/
structure Alert where
  atype : String
  thresholdValue : Option ℚ := none
  actualSpending : Option ℚ := none
  period : Option (List Nat) := none
  excessAmount : Option ℚ := none
  category : Option (List Nat) := none
  currentBalance : Option ℚ := none
  deficit : Option ℚ := none
  payload : Option Nat := none
  priority : Nat := 1
  alertConfigId : Option Nat := none
deriving DecidableEq

/-- Start of the period window in `_calculate_spending_for_period` and
`_calculate_category_spending`: daily = local midnight, weekly = 7 days
back, monthly = 30 days back, anything else = 1 day back. -/
def periodStart (clock : Clock) (period : List Nat) : Int :=
  if period == pystr "daily" then clock.startOfDay
  else if period == pystr "weekly" then clock.now - 7 * 86400
  else if period == pystr "monthly" then clock.now - 30 * 86400
  else clock.now - 86400

/-- Model of `_calculate_spending_for_period`: sum the amounts of the transactions
whose timestamp is ≥ the window start. -/
def calcSpendingForPeriod (clock : Clock) (txns : List Txn) (period : List Nat) : ℚ :=
  let start := periodStart clock period
  txns.foldl (fun acc t => if start ≤ t.timestamp then acc + t.amount else acc) 0

/-- The alert dict built by `_check_spending_threshold_alerts` for one
configuration whose threshold is exceeded. -/
def spendingThresholdAlertOf (clock : Clock) (txns : List Txn) (c : AlertConfig) : Alert :=
  let spending := calcSpendingForPeriod clock txns c.thresholdPeriod
  { atype := "spending_threshold"
    thresholdValue := some c.thresholdValue
    actualSpending := some spending
    period := some c.thresholdPeriod
    excessAmount := some (spending - c.thresholdValue)
    priority := 3
    alertConfigId := some c.id }

/-- Model of `_check_spending_threshold_alerts`. -/
def checkSpendingThresholdAlerts (clock : Clock) (txns : List Txn)
    (configs : List AlertConfig) : List Alert :=
  (configs.filter (fun c => c.alertType == "spending_threshold")).filterMap
    (fun c =>
      if calcSpendingForPeriod clock txns c.thresholdPeriod > c.thresholdValue
      then some (spendingThresholdAlertOf clock txns c) else none)

lemma spend_foldl (start : Int) :
    ∀ (l : List Txn) (acc : ℚ),
      l.foldl (fun acc t => if start ≤ t.timestamp then acc + t.amount else acc) acc
        = acc + ((l.filter (fun t => decide (start ≤ t.timestamp))).map Txn.amount).sum := by
  intro l
  induction l with
  | nil => intro acc; simp
  | cons t ts ih =>
    intro acc
    by_cases h : start ≤ t.timestamp
    · simp [List.foldl_cons, if_pos h, List.filter_cons, h, ih]
      ring
    · simp [List.foldl_cons, if_neg h, List.filter_cons, h, ih]

/-- The clock of the C6 concrete scenario: midnight at 0, now at 1000. -/
def exClock : Clock := { now := 1000, startOfDay := 0 }

/-- Two transactions today summing to 150. -/
def exThrTxns : List Txn :=
  [{ amount := 70, timestamp := 100 }, { amount := 80, timestamp := 200 }]

/-- A daily spending-threshold configuration at 100. -/
def exThrCfg : AlertConfig :=
  { id := 1, alertType := "spending_threshold", alertName := pystr "Daily Limit"
    thresholdValue := 100, thresholdPeriod := pystr "daily" }

/-- C6: spending-threshold evaluation sums exactly the amounts inside the
period window (daily = since local midnight, weekly = 7 days, monthly = 30
days, other = 1 day), alerts iff the sum strictly exceeds the threshold,
carries excess = sum − threshold; the concrete threshold-100 daily scenario
with 150 spent today yields exactly one alert with excess 50. -/
theorem spendingThreshold_spec :
    (∀ clock txns period,
      calcSpendingForPeriod clock txns period
        = ((txns.filter (fun t => decide (periodStart clock period ≤ t.timestamp))).map
            Txn.amount).sum)
  ∧ (∀ clock : Clock,
      periodStart clock (pystr "daily") = clock.startOfDay
      ∧ periodStart clock (pystr "weekly") = clock.now - 7 * 86400
      ∧ periodStart clock (pystr "monthly") = clock.now - 30 * 86400
      ∧ (∀ period, period ≠ pystr "daily" → period ≠ pystr "weekly" →
          period ≠ pystr "monthly" → periodStart clock period = clock.now - 86400))
  ∧ (∀ clock txns (c : AlertConfig), c.alertType = "spending_threshold" →
      checkSpendingThresholdAlerts clock txns [c]
        = if calcSpendingForPeriod clock txns c.thresholdPeriod > c.thresholdValue
          then [spendingThresholdAlertOf clock txns c] else [])
  ∧ checkSpendingThresholdAlerts exClock exThrTxns [exThrCfg]
      = [{ atype := "spending_threshold"
           thresholdValue := some 100
           actualSpending := some 150
           period := some (pystr "daily")
           excessAmount := some 50
           priority := 3
           alertConfigId := some 1 }] := by
  have hcalc : ∀ clock txns period,
      calcSpendingForPeriod clock txns period
        = ((txns.filter (fun t => decide (periodStart clock period ≤ t.timestamp))).map
            Txn.amount).sum := by
    intro clock txns period
    show txns.foldl _ 0 = _
    rw [spend_foldl]
    ring
  have hone : ∀ clock txns (c : AlertConfig), c.alertType = "spending_threshold" →
      checkSpendingThresholdAlerts clock txns [c]
        = if calcSpendingForPeriod clock txns c.thresholdPeriod > c.thresholdValue
          then [spendingThresholdAlertOf clock txns c] else [] := by
    intro clock txns c h
    rw [checkSpendingThresholdAlerts]
    have hf : (([c] : List AlertConfig).filter
        (fun c => c.alertType == "spending_threshold")) = [c] := by
      simp [List.filter_cons, h]
    rw [hf]
    by_cases hlt : calcSpendingForPeriod clock txns c.thresholdPeriod > c.thresholdValue
    · simp [List.filterMap_cons, hlt]
    · simp [List.filterMap_cons, hlt]
  refine ⟨hcalc, ?_, hone, ?_⟩
  · intro clock
    refine ⟨rfl, ?_, ?_, ?_⟩
    · rw [periodStart, if_neg (by decide), if_pos (by decide)]
    · rw [periodStart, if_neg (by decide), if_neg (by decide), if_pos (by decide)]
    · intro period h1 h2 h3
      rw [periodStart, if_neg (by simpa using h1), if_neg (by simpa using h2),
        if_neg (by simpa using h3)]
  · have hspend : calcSpendingForPeriod exClock exThrTxns (pystr "daily") = 150 := by
      rw [hcalc]
      norm_num [exThrTxns, periodStart, exClock]
    have halert : spendingThresholdAlertOf exClock exThrTxns exThrCfg
        = { atype := "spending_threshold", thresholdValue := some 100,
            actualSpending := some 150, period := some (pystr "daily"),
            excessAmount := some 50, priority := 3, alertConfigId := some 1 } := by
      show ({ atype := "spending_threshold"
              thresholdValue := some exThrCfg.thresholdValue
              actualSpending :=
                some (calcSpendingForPeriod exClock exThrTxns exThrCfg.thresholdPeriod)
              period := some exThrCfg.thresholdPeriod
              excessAmount :=
                some (calcSpendingForPeriod exClock exThrTxns exThrCfg.thresholdPeriod
                  - exThrCfg.thresholdValue)
              priority := 3
              alertConfigId := some exThrCfg.id } : Alert) = _
      rw [show exThrCfg.thresholdPeriod = pystr "daily" from rfl, hspend]
      simp [exThrCfg]
      norm_num
    rw [hone exClock exThrTxns exThrCfg rfl,
        show exThrCfg.thresholdPeriod = pystr "daily" from rfl, hspend,
        show exThrCfg.thresholdValue = (100:ℚ) from rfl,
        if_pos (by norm_num : (150:ℚ) > 100), halert]

/-- Witness for C6: the per-configuration rule applied to the concrete
scenario. -/
theorem spendingThreshold_spec_witness :
    exThrCfg.alertType = "spending_threshold"
  ∧ checkSpendingThresholdAlerts exClock exThrTxns [exThrCfg]
      = (if calcSpendingForPeriod exClock exThrTxns exThrCfg.thresholdPeriod
            > exThrCfg.thresholdValue
         then [spendingThresholdAlertOf exClock exThrTxns exThrCfg] else []) :=
  ⟨rfl, spendingThreshold_spec.2.2.1 exClock exThrTxns exThrCfg rfl⟩
/-! ### Category budget alerts (`_calculate_category_spending`,
`_check_category_budget_alerts`) -/

/-- The static `category_keywords` table of `_calculate_category_spending`. -/
def categoryKeywordTableAN : List (List Nat × List (List Nat)) :=
  [(pystr "coffee", [pystr "coffee", pystr "starbucks", pystr "cafe"]),
   (pystr "food", [pystr "restaurant", pystr "dining", pystr "food",
                   pystr "lunch", pystr "dinner"]),
   (pystr "entertainment", [pystr "movie", pystr "game", pystr "netflix",
                   pystr "spotify"]),
   (pystr "shopping", [pystr "amazon", pystr "store", pystr "retail"])]

/-- Model of `category_keywords.get(category.lower(), [category.lower()])`. -/
def keywordsForCategory (category : List Nat) : List (List Nat) :=
  match categoryKeywordTableAN.find? (fun p => p.1 == lower category) with
  | some p => p.2
  | none => [lower category]

/-- Model of `any(keyword in str(t.get("description", "")).lower() for keyword in
keywords)`. -/
def matchesCategory (keywords : List (List Nat)) (t : Txn) : Bool :=
  keywords.any (fun k => substr k (lower (t.description.getD [])))

/-- Model of `_calculate_category_spending`: sum the amounts of in-window
transactions whose description matches a category keyword. -/
def calcCategorySpending (clock : Clock) (txns : List Txn)
    (category period : List Nat) : ℚ :=
  let keywords := keywordsForCategory category
  let start := periodStart clock period
  txns.foldl (fun acc t =>
    if start ≤ t.timestamp then
      if matchesCategory keywords t then acc + t.amount else acc
    else acc) 0

/-- The alert dict built by `_check_category_budget_alerts` for one
configuration whose budget is exceeded. -/
def categoryBudgetAlertOf (clock : Clock) (txns : List Txn) (c : AlertConfig) : Alert :=
  let spending := calcCategorySpending clock txns c.alertName c.thresholdPeriod
  { atype := "category_budget"
    category := some c.alertName
    thresholdValue := some c.thresholdValue
    actualSpending := some spending
    period := some c.thresholdPeriod
    excessAmount := some (spending - c.thresholdValue)
    priority := 3
    alertConfigId := some c.id }

/-- Model of `_check_category_budget_alerts`. -/
def checkCategoryBudgetAlerts (clock : Clock) (txns : List Txn)
    (configs : List AlertConfig) : List Alert :=
  (configs.filter (fun c => c.alertType == "category_budget")).filterMap
    (fun c =>
      if calcCategorySpending clock txns c.alertName c.thresholdPeriod > c.thresholdValue
      then some (categoryBudgetAlertOf clock txns c) else none)

lemma catStep_skip (clock : Clock) (category period : List Nat) (t : Txn)
    (h : matchesCategory (keywordsForCategory category) t = false) (acc : ℚ) :
    (if periodStart clock period ≤ t.timestamp then
       if matchesCategory (keywordsForCategory category) t then acc + t.amount else acc
     else acc) = acc := by
  rw [h]
  split <;> rfl

lemma matchesCategory_none (keywords : List (List Nat))
    (hkw : ([] : List Nat) ∉ keywords) (t : Txn) (ht : t.description = none) :
    matchesCategory keywords t = false := by
  rw [matchesCategory, List.any_eq_false]
  intro k hk
  cases k with
  | nil => exact absurd hk hkw
  | cons a as =>
    rw [ht]
    exact fun hcontra => Bool.false_ne_true hcontra

lemma calcCategorySpending_all_skip (clock : Clock) (category period : List Nat) :
    ∀ (txns : List Txn),
      (∀ t ∈ txns, matchesCategory (keywordsForCategory category) t = false) →
      calcCategorySpending clock txns category period = 0 := by
  have general : ∀ (txns : List Txn) (acc : ℚ),
      (∀ t ∈ txns, matchesCategory (keywordsForCategory category) t = false) →
      txns.foldl (fun acc t =>
        if periodStart clock period ≤ t.timestamp then
          if matchesCategory (keywordsForCategory category) t then acc + t.amount else acc
        else acc) acc = acc := by
    intro txns
    induction txns with
    | nil => intro acc _; rfl
    | cons t ts ih =>
      intro acc h
      rw [List.foldl_cons, catStep_skip clock category period t (h t (by simp)) acc]
      exact ih acc (fun x hx => h x (by simp [hx]))
  intro txns h
  exact general txns 0 h

/-- C10 counterexample inputs: an empty category name, a positive budget,
and a single in-window description-less transaction. -/
def catClock : Clock := { now := 1000, startOfDay := 0 }

/-- A description-less transaction (ledger shape) of amount 50, today. -/
def catTxn : Txn := { amount := 50, timestamp := 500 }

/-- A category-budget configuration whose category name is empty. -/
def catCfg : AlertConfig :=
  { id := 2, alertType := "category_budget", alertName := pystr ""
    thresholdValue := 10, thresholdPeriod := pystr "daily" }

/-- C10 counterexample: with the empty category name the fallback keyword
list is the empty string, which is a substring of every description, so a
description-less transaction contributes its amount and a category_budget
alert with a positive threshold is emitted — contradicting the claim that
such transactions always contribute 0 and no such alert is ever emitted. -/
theorem categoryBudget_counterexample :
    catTxn.description = none
  ∧ (0 : ℚ) < catCfg.thresholdValue
  ∧ calcCategorySpending catClock [catTxn] (pystr "") (pystr "daily") = 50
  ∧ checkCategoryBudgetAlerts catClock [catTxn] [catCfg] ≠ [] := by
  have hspend : calcCategorySpending catClock [catTxn] (pystr "") (pystr "daily") = 50 := by
    show (if periodStart catClock (pystr "daily") ≤ catTxn.timestamp then
        if matchesCategory (keywordsForCategory (pystr "")) catTxn
        then 0 + catTxn.amount else 0
      else (0:ℚ)) = 50
    rw [if_pos (by decide), if_pos (by decide)]
    norm_num [catTxn]
  refine ⟨rfl, by norm_num [catCfg], hspend, ?_⟩
  have hfil : (([catCfg] : List AlertConfig).filter
      (fun c => c.alertType == "category_budget")) = [catCfg] := by
    simp [List.filter_cons, catCfg]
  rw [checkCategoryBudgetAlerts, hfil]
  have hcond : calcCategorySpending catClock [catTxn] catCfg.alertName
      catCfg.thresholdPeriod > catCfg.thresholdValue := by
    rw [show catCfg.alertName = pystr "" from rfl,
        show catCfg.thresholdPeriod = pystr "daily" from rfl, hspend]
    norm_num [catCfg]
  rw [List.filterMap_cons, if_pos hcond]
  simp

/-- C10 (amended): a transaction contributes to a category sum only if its
lowercased description contains one of the category's keywords; provided
the derived keyword list does not contain the empty string (in particular
for every non-empty category name), every description-less transaction
contributes 0, the sum over description-less (ledger-shaped) transactions
is 0, and no category_budget alert with a positive threshold is emitted. -/
theorem categoryBudget_spec :
    (∀ clock category period (t : Txn) txns,
      matchesCategory (keywordsForCategory category) t = false →
      calcCategorySpending clock (t :: txns) category period
        = calcCategorySpending clock txns category period)
  ∧ (∀ clock category period (txns : List Txn),
      ([] : List Nat) ∉ keywordsForCategory category →
      (∀ t ∈ txns, t.description = none) →
      calcCategorySpending clock txns category period = 0)
  ∧ (∀ clock (txns : List Txn) (configs : List AlertConfig),
      (∀ t ∈ txns, t.description = none) →
      (∀ c ∈ configs, ([] : List Nat) ∉ keywordsForCategory c.alertName
        ∧ 0 < c.thresholdValue) →
      checkCategoryBudgetAlerts clock txns configs = []) := by
  have hzero : ∀ clock category period (txns : List Txn),
      ([] : List Nat) ∉ keywordsForCategory category →
      (∀ t ∈ txns, t.description = none) →
      calcCategorySpending clock txns category period = 0 := by
    intro clock category period txns hkw hdesc
    exact calcCategorySpending_all_skip clock category period txns
      (fun t ht => matchesCategory_none _ hkw t (hdesc t ht))
  refine ⟨?_, hzero, ?_⟩
  · intro clock category period t txns h
    show List.foldl _ _ (t :: txns) = List.foldl _ _ txns
    rw [List.foldl_cons, catStep_skip clock category period t h 0]
  · intro clock txns configs hdesc hcfg
    rw [checkCategoryBudgetAlerts, List.filterMap_eq_nil_iff]
    intro c hc
    have hc' : c ∈ configs := (List.mem_filter.mp hc).1
    rcases hcfg c hc' with ⟨hkw, hpos⟩
    rw [if_neg]
    rw [hzero clock c.alertName c.thresholdPeriod txns hkw hdesc]
    exact not_lt.mpr (le_of_lt hpos)

/-- Witness for C10 (amended) on a concrete "coffee" budget over
description-less transactions. -/
theorem categoryBudget_spec_witness :
    (([] : List Nat) ∉ keywordsForCategory (pystr "coffee")
      ∧ (∀ t ∈ [catTxn], t.description = none)
      ∧ calcCategorySpending catClock [catTxn] (pystr "coffee") (pystr "daily") = 0) := by
  refine ⟨by decide, ?_, ?_⟩
  · intro t ht
    rw [List.mem_singleton.mp ht]
    rfl
  · exact categoryBudget_spec.2.1 catClock (pystr "coffee") (pystr "daily") [catTxn]
      (by decide)
      (fun t ht => by rw [List.mem_singleton.mp ht]; rfl)
/-! ### Aggregated alert checking (`check_alerts`) -/

/-- An improvement pattern returned by the AI gateway for
`_analyze_spending_improvements`. -/
structure ImpPattern where
  payload : Nat
  isPositive : Bool
deriving DecidableEq

/-- Model of `_check_unusual_spending_alerts`: needs ≥ 10 transactions; the AI
result is an oracle (`Except.error ()` = a failure caught by the check's
handler, yielding no alerts). -/
def checkUnusualSpendingAlerts (txns : List Txn)
    (aiR : Except Unit (List Nat)) : List Alert :=
  if txns.length < 10 then []
  else
    match aiR with
    | .error _ => []
    | .ok pats =>
      pats.map (fun p => { atype := "unusual_spending", payload := some p, priority := 2 })

/-- Model of `_check_improvement_alerts`: needs ≥ 20 transactions; only patterns
marked positive become alerts. -/
def checkImprovementAlerts (txns : List Txn)
    (aiR : Except Unit (List ImpPattern)) : List Alert :=
  if txns.length < 20 then []
  else
    match aiR with
    | .error _ => []
    | .ok pats =>
      (pats.filter (fun p => p.isPositive)).map
        (fun p => { atype := "improvement_alert", payload := some p.payload, priority := 1 })

/-- Model of `_check_balance_alerts`: no low_balance configuration means no balance
query; a balance-query failure is caught and yields no alerts. -/
def checkBalanceAlerts (balR : Except Unit ℚ)
    (configs : List AlertConfig) : List Alert :=
  let bcfgs := configs.filter (fun c => c.alertType == "low_balance")
  if bcfgs.isEmpty then []
  else
    match balR with
    | .error _ => []
    | .ok bal =>
      bcfgs.filterMap (fun c =>
        if bal < c.thresholdValue then
          some { atype := "low_balance", currentBalance := some bal,
                 thresholdValue := some c.thresholdValue,
                 deficit := some (c.thresholdValue - bal),
                 priority := 4, alertConfigId := some c.id }
        else none)

/-- Model of `_get_user_alert_configs`: a database failure is caught and yields an
empty configuration list. -/
def configsOf (r : Except Unit (List AlertConfig)) : List AlertConfig :=
  match r with
  | .ok l => l
  | .error _ => []

/-- Model of `check_alerts`: short-circuit on an empty transaction list, then run
the five checks and concatenate their results. -/
def checkAlerts (clock : Clock) (txns : List Txn)
    (cfgR : Except Unit (List AlertConfig)) (balR : Except Unit ℚ)
    (unusR : Except Unit (List Nat)) (impR : Except Unit (List ImpPattern)) :
    List Alert :=
  if txns.isEmpty then []
  else
    let configs := configsOf cfgR
    checkSpendingThresholdAlerts clock txns configs
      ++ checkCategoryBudgetAlerts clock txns configs
      ++ checkUnusualSpendingAlerts txns unusR
      ++ checkBalanceAlerts balR configs
      ++ checkImprovementAlerts txns impR

lemma checkBalanceAlerts_error (configs : List AlertConfig) :
    checkBalanceAlerts (Except.error ()) configs = [] := by
  rw [checkBalanceAlerts]
  split <;> rfl

lemma checkUnusualSpendingAlerts_error (txns : List Txn) :
    checkUnusualSpendingAlerts txns (Except.error ()) = [] := by
  rw [checkUnusualSpendingAlerts]
  split <;> rfl

lemma checkImprovementAlerts_error (txns : List Txn) :
    checkImprovementAlerts txns (Except.error ()) = [] := by
  rw [checkImprovementAlerts]
  split <;> rfl

/-- C7: for a non-empty transaction list, `check_alerts` is the
concatenation of the five independent checks, and a failure inside any of
the fallible checks contributes an empty list for that check only, leaving
the other checks' results unchanged. -/
theorem alertIsolation_spec :
    ∀ clock txns cfgR balR unusR impR, txns ≠ ([] : List Txn) →
      (checkAlerts clock txns cfgR balR unusR impR
        = checkSpendingThresholdAlerts clock txns (configsOf cfgR)
          ++ checkCategoryBudgetAlerts clock txns (configsOf cfgR)
          ++ checkUnusualSpendingAlerts txns unusR
          ++ checkBalanceAlerts balR (configsOf cfgR)
          ++ checkImprovementAlerts txns impR)
    ∧ (checkAlerts clock txns cfgR (Except.error ()) unusR impR
        = checkSpendingThresholdAlerts clock txns (configsOf cfgR)
          ++ checkCategoryBudgetAlerts clock txns (configsOf cfgR)
          ++ checkUnusualSpendingAlerts txns unusR
          ++ []
          ++ checkImprovementAlerts txns impR)
    ∧ (checkAlerts clock txns cfgR balR (Except.error ()) impR
        = checkSpendingThresholdAlerts clock txns (configsOf cfgR)
          ++ checkCategoryBudgetAlerts clock txns (configsOf cfgR)
          ++ []
          ++ checkBalanceAlerts balR (configsOf cfgR)
          ++ checkImprovementAlerts txns impR)
    ∧ (checkAlerts clock txns cfgR balR unusR (Except.error ())
        = checkSpendingThresholdAlerts clock txns (configsOf cfgR)
          ++ checkCategoryBudgetAlerts clock txns (configsOf cfgR)
          ++ checkUnusualSpendingAlerts txns unusR
          ++ checkBalanceAlerts balR (configsOf cfgR)
          ++ []) := by
  intro clock txns cfgR balR unusR impR hne
  cases txns with
  | nil => exact absurd rfl hne
  | cons t ts =>
    refine ⟨rfl, ?_, ?_, ?_⟩
    · rw [show checkAlerts clock (t :: ts) cfgR (Except.error ()) unusR impR
          = checkSpendingThresholdAlerts clock (t :: ts) (configsOf cfgR)
            ++ checkCategoryBudgetAlerts clock (t :: ts) (configsOf cfgR)
            ++ checkUnusualSpendingAlerts (t :: ts) unusR
            ++ checkBalanceAlerts (Except.error ()) (configsOf cfgR)
            ++ checkImprovementAlerts (t :: ts) impR from rfl,
        checkBalanceAlerts_error]
    · rw [show checkAlerts clock (t :: ts) cfgR balR (Except.error ()) impR
          = checkSpendingThresholdAlerts clock (t :: ts) (configsOf cfgR)
            ++ checkCategoryBudgetAlerts clock (t :: ts) (configsOf cfgR)
            ++ checkUnusualSpendingAlerts (t :: ts) (Except.error ())
            ++ checkBalanceAlerts balR (configsOf cfgR)
            ++ checkImprovementAlerts (t :: ts) impR from rfl,
        checkUnusualSpendingAlerts_error]
    · rw [show checkAlerts clock (t :: ts) cfgR balR unusR (Except.error ())
          = checkSpendingThresholdAlerts clock (t :: ts) (configsOf cfgR)
            ++ checkCategoryBudgetAlerts clock (t :: ts) (configsOf cfgR)
            ++ checkUnusualSpendingAlerts (t :: ts) unusR
            ++ checkBalanceAlerts balR (configsOf cfgR)
            ++ checkImprovementAlerts (t :: ts) (Except.error ()) from rfl,
        checkImprovementAlerts_error]

/-- Witness for C7: a concrete non-empty transaction list and oracles. -/
theorem alertIsolation_spec_witness :
    ([catTxn] : List Txn) ≠ []
  ∧ (checkAlerts catClock [catTxn] (Except.ok []) (Except.ok 0)
        (Except.ok []) (Except.ok [])
      = checkSpendingThresholdAlerts catClock [catTxn] (configsOf (Except.ok []))
        ++ checkCategoryBudgetAlerts catClock [catTxn] (configsOf (Except.ok []))
        ++ checkUnusualSpendingAlerts [catTxn] (Except.ok [])
        ++ checkBalanceAlerts (Except.ok 0) (configsOf (Except.ok []))
        ++ checkImprovementAlerts [catTxn] (Except.ok [])) :=
  ⟨by decide,
   (alertIsolation_spec catClock [catTxn] (Except.ok []) (Except.ok 0)
      (Except.ok []) (Except.ok []) (by decide)).1⟩

/-- A low-balance configuration used to illustrate C9. -/
def lowBalCfg : AlertConfig :=
  { id := 3, alertType := "low_balance", alertName := pystr "Low Balance"
    thresholdValue := 100, thresholdPeriod := pystr "daily" }

/-- C9: with an empty caller-supplied transaction list, `check_alerts`
returns the empty list whatever the configurations, balance, and AI
oracles are; in particular no low_balance alert is produced even when an
active low_balance configuration exists and the balance is below its
threshold. -/
theorem emptyTransactions_spec :
    (∀ clock cfgR balR unusR impR,
      checkAlerts clock [] cfgR balR unusR impR = [])
  ∧ checkAlerts catClock [] (Except.ok [lowBalCfg]) (Except.ok (-5))
      (Except.ok []) (Except.ok []) = [] :=
  ⟨fun _ _ _ _ _ => rfl, rfl⟩
/-! ### Preference upsert (`DatabaseManager.save_user_preference`,
`UserPreferenceAgent.update_preferences`) -/

/-- A preference value: either an opaque scalar or a one-level mapping
(the only shape distinction `update_preferences` inspects). -/
inductive PyVal where
  | atom (v : Nat)
  | dict (entries : List (List Nat × Nat))
deriving DecidableEq

/-- A row of the `user_preferences` table. -/
structure PrefRow where
  id : Nat
  username : List Nat
  ptype : List Nat
  pkey : List Nat
  pvalue : PyVal
deriving DecidableEq

/-- The `WHERE username = ... AND preference_type = ... AND
preference_key = ...` predicate. -/
def prefMatches (u t k : List Nat) (r : PrefRow) : Bool :=
  r.username == u && r.ptype == t && r.pkey == k

/-- Fresh id for an inserted row (`SERIAL` primary key). -/
def nextPrefId (db : List PrefRow) : Nat :=
  db.foldl (fun m r => max m r.id) 0 + 1

/-- Model of `save_user_preference`: update the first existing row for
(username, type, key), else insert a new row; returns the row id and the
new table state. -/
def saveUserPreference (db : List PrefRow) (u t k : List Nat) (v : PyVal) :
    Nat × List PrefRow :=
  match db.filter (prefMatches u t k) with
  | [] =>
    let nid := nextPrefId db
    (nid, db ++ [{ id := nid, username := u, ptype := t, pkey := k, pvalue := v }])
  | e :: _ =>
    (e.id, db.map (fun r => if r.id = e.id then { r with pvalue := v } else r))

/-- The number of upserts `update_preferences` performs on this input. -/
def upsertsOf (prefs : List (List Nat × PyVal)) : Nat :=
  (prefs.map (fun p =>
    match p.2 with
    | .dict entries => entries.length
    | _ => 1)).sum

/-- One upsert of the `update_preferences` loop body: save, then count the
success when the returned id is truthy. -/
def upsertOne (u ptype key : List Nat) (v : PyVal)
    (acc : Nat × List PrefRow) : Nat × List PrefRow :=
  let r := saveUserPreference acc.2 u ptype key v
  (if r.1 ≠ 0 then acc.1 + 1 else acc.1, r.2)

/-- One iteration of the outer `update_preferences` loop: a mapping-typed
value upserts one preference per entry, anything else upserts a single
preference under key "default". -/
def updateStep (u : List Nat) (acc : Nat × List PrefRow)
    (p : List Nat × PyVal) : Nat × List PrefRow :=
  match p.2 with
  | .dict entries =>
    entries.foldl (fun acc2 e => upsertOne u p.1 e.1 (PyVal.atom e.2) acc2) acc
  | v => upsertOne u p.1 (pystr "default") v acc

/-- Model of `update_preferences`: one upsert per entry of a mapping-typed value,
one upsert with key "default" otherwise; returns whether at least one
upsert yielded a truthy id, plus the final table state. -/
def updatePreferences (db : List PrefRow) (u : List Nat)
    (prefs : List (List Nat × PyVal)) : Bool × List PrefRow :=
  let res := prefs.foldl (updateStep u) (0, db)
  (decide (0 < res.1), res.2)

lemma save_eq_insert (db : List PrefRow) (u t k : List Nat) (v : PyVal)
    (hfil : db.filter (prefMatches u t k) = []) :
    saveUserPreference db u t k v
      = (nextPrefId db,
         db ++ [{ id := nextPrefId db, username := u, ptype := t, pkey := k,
                  pvalue := v }]) := by
  unfold saveUserPreference
  rw [hfil]

lemma save_eq_update (db : List PrefRow) (u t k : List Nat) (v : PyVal)
    (e : PrefRow) (l : List PrefRow)
    (hfil : db.filter (prefMatches u t k) = e :: l) :
    saveUserPreference db u t k v
      = (e.id, db.map (fun r => if r.id = e.id then { r with pvalue := v } else r)) := by
  unfold saveUserPreference
  rw [hfil]

lemma map_eq_self {α : Type} (f : α → α) :
    ∀ l : List α, (∀ a ∈ l, f a = a) → l.map f = l := by
  intro l
  induction l with
  | nil => intro _; rfl
  | cons a t ih =>
    intro h
    rw [List.map_cons, h a (by simp), ih (fun x hx => h x (by simp [hx]))]

lemma foldmax_le (db : List PrefRow) : ∀ a : Nat,
    a ≤ db.foldl (fun m r => max m r.id) a := by
  induction db with
  | nil => intro a; exact le_refl a
  | cons r ts ih =>
    intro a
    exact le_trans (le_max_left a r.id) (ih (max a r.id))

lemma id_le_foldmax (db : List PrefRow) : ∀ (a : Nat) (r : PrefRow), r ∈ db →
    r.id ≤ db.foldl (fun m r => max m r.id) a := by
  induction db with
  | nil => intro a r hr; exact absurd hr (List.not_mem_nil r)
  | cons s ts ih =>
    intro a r hr
    rcases List.mem_cons.mp hr with rfl | hr'
    · exact le_trans (le_max_right a r.id) (foldmax_le ts (max a r.id))
    · exact ih (max a s.id) r hr'

lemma mem_id_lt_next (db : List PrefRow) (r : PrefRow) (h : r ∈ db) :
    r.id < nextPrefId db := by
  rw [nextPrefId]
  have := id_le_foldmax db 0 r h
  omega

lemma prefMatches_update (u t k : List Nat) (r : PrefRow) (v : PyVal) :
    prefMatches u t k { r with pvalue := v } = prefMatches u t k r := rfl

lemma save_id_pos (db : List PrefRow) (u t k : List Nat) (v : PyVal)
    (h : ∀ r ∈ db, 1 ≤ r.id) : 1 ≤ (saveUserPreference db u t k v).1 := by
  cases hfil : db.filter (prefMatches u t k) with
  | nil =>
    rw [save_eq_insert db u t k v hfil]
    show 1 ≤ nextPrefId db
    rw [nextPrefId]
    omega
  | cons e l =>
    rw [save_eq_update db u t k v e l hfil]
    have he : e ∈ db := List.mem_of_mem_filter (hfil ▸ List.mem_cons_self e l)
    exact h e he

lemma save_ids_pos (db : List PrefRow) (u t k : List Nat) (v : PyVal)
    (h : ∀ r ∈ db, 1 ≤ r.id) :
    ∀ r ∈ (saveUserPreference db u t k v).2, 1 ≤ r.id := by
  cases hfil : db.filter (prefMatches u t k) with
  | nil =>
    rw [save_eq_insert db u t k v hfil]
    intro r hr
    rcases List.mem_append.mp hr with hr' | hr'
    · exact h r hr'
    · rw [List.mem_singleton.mp hr']
      show 1 ≤ nextPrefId db
      rw [nextPrefId]
      omega
  | cons e l =>
    rw [save_eq_update db u t k v e l hfil]
    intro r hr
    rcases List.mem_map.mp hr with ⟨r0, hr0, hr0e⟩
    by_cases hid : r0.id = e.id
    · rw [← hr0e, if_pos hid]
      exact h r0 hr0
    · rw [← hr0e, if_neg hid]
      exact h r0 hr0
/-- The row inserted by `save_user_preference` when no match exists. -/
def insertedRow (db : List PrefRow) (u t k : List Nat) (v : PyVal) : PrefRow :=
  { id := nextPrefId db, username := u, ptype := t, pkey := k, pvalue := v }

lemma prefMatches_insertedRow (db : List PrefRow) (u t k : List Nat) (v : PyVal) :
    prefMatches u t k (insertedRow db u t k v) = true := by
  simp [prefMatches, insertedRow]

lemma filter_append_insert (db : List PrefRow) (u t k : List Nat) (v : PyVal)
    (hfil : db.filter (prefMatches u t k) = []) :
    (db ++ [insertedRow db u t k v]).filter (prefMatches u t k)
      = [insertedRow db u t k v] := by
  rw [List.filter_append, hfil, List.nil_append]
  simp [List.filter_cons, prefMatches_insertedRow]

lemma update_map_filter (db : List PrefRow) (u t k : List Nat) (v : PyVal)
    (e : PrefRow) (hfil : db.filter (prefMatches u t k) = [e]) :
    (db.map (fun r => if r.id = e.id then { r with pvalue := v } else r)).filter
      (prefMatches u t k) = [{ e with pvalue := v }] := by
  rw [List.filter_map]
  have hcong : db.filter
      ((prefMatches u t k) ∘ (fun r => if r.id = e.id then { r with pvalue := v } else r))
      = db.filter (prefMatches u t k) := by
    apply List.filter_congr
    intro a _
    show prefMatches u t k (if a.id = e.id then { a with pvalue := v } else a)
      = prefMatches u t k a
    by_cases h : a.id = e.id
    · rw [if_pos h]
      rfl
    · rw [if_neg h]
  rw [hcong, hfil, List.map_cons, List.map_nil, if_pos rfl]

lemma map_update_twice (db : List PrefRow) (v : PyVal) (e : PrefRow) :
    ((db.map (fun r => if r.id = e.id then { r with pvalue := v } else r)).map
      (fun r => if r.id = e.id then { r with pvalue := v } else r))
      = db.map (fun r => if r.id = e.id then { r with pvalue := v } else r) := by
  rw [List.map_map]
  have hff : ((fun r : PrefRow => if r.id = e.id then { r with pvalue := v } else r)
      ∘ (fun r => if r.id = e.id then { r with pvalue := v } else r))
      = fun r => if r.id = e.id then { r with pvalue := v } else r := by
    funext a
    by_cases h : a.id = e.id <;> simp [h]
  rw [hff]

lemma save_after_update (db : List PrefRow) (u t k : List Nat) (v : PyVal)
    (e : PrefRow) (hfil : db.filter (prefMatches u t k) = [e]) :
    saveUserPreference
        (db.map (fun r => if r.id = e.id then { r with pvalue := v } else r)) u t k v
      = (e.id, db.map (fun r => if r.id = e.id then { r with pvalue := v } else r)) := by
  rw [save_eq_update
      (db.map (fun r => if r.id = e.id then { r with pvalue := v } else r)) u t k v
      ({ e with pvalue := v }) [] (update_map_filter db u t k v e hfil)]
  show (e.id,
      (db.map (fun r => if r.id = e.id then { r with pvalue := v } else r)).map
        (fun r => if r.id = e.id then { r with pvalue := v } else r))
    = (e.id, db.map (fun r => if r.id = e.id then { r with pvalue := v } else r))
  rw [map_update_twice]

lemma upsertOne_eq (u ptype key : List Nat) (v : PyVal) (acc : Nat × List PrefRow)
    (h : ∀ r ∈ acc.2, 1 ≤ r.id) :
    upsertOne u ptype key v acc
      = (acc.1 + 1, (saveUserPreference acc.2 u ptype key v).2) := by
  have hid := save_id_pos acc.2 u ptype key v h
  show ((if (saveUserPreference acc.2 u ptype key v).1 ≠ 0 then acc.1 + 1 else acc.1),
      (saveUserPreference acc.2 u ptype key v).2)
    = (acc.1 + 1, (saveUserPreference acc.2 u ptype key v).2)
  rw [if_pos (by omega)]

lemma foldl_upsert (u ptype : List Nat) :
    ∀ (entries : List (List Nat × Nat)) (acc : Nat × List PrefRow),
      (∀ r ∈ acc.2, 1 ≤ r.id) →
      (entries.foldl (fun acc2 e => upsertOne u ptype e.1 (PyVal.atom e.2) acc2) acc).1
        = acc.1 + entries.length
      ∧ (∀ r ∈ (entries.foldl
            (fun acc2 e => upsertOne u ptype e.1 (PyVal.atom e.2) acc2) acc).2,
          1 ≤ r.id) := by
  intro entries
  induction entries with
  | nil => intro acc h; exact ⟨rfl, h⟩
  | cons e es ih =>
    intro acc h
    rw [List.foldl_cons, upsertOne_eq u ptype e.1 (PyVal.atom e.2) acc h]
    have h' : ∀ r ∈ ((acc.1 + 1,
        (saveUserPreference acc.2 u ptype e.1 (PyVal.atom e.2)).2) :
          Nat × List PrefRow).2, 1 ≤ r.id :=
      save_ids_pos acc.2 u ptype e.1 (PyVal.atom e.2) h
    rcases ih _ h' with ⟨h1, h2⟩
    refine ⟨?_, h2⟩
    rw [h1, List.length_cons]
    show acc.1 + 1 + es.length = acc.1 + (es.length + 1)
    omega

lemma foldl_updateStep (u : List Nat) :
    ∀ (prefs : List (List Nat × PyVal)) (acc : Nat × List PrefRow),
      (∀ r ∈ acc.2, 1 ≤ r.id) →
      (prefs.foldl (updateStep u) acc).1 = acc.1 + upsertsOf prefs
      ∧ (∀ r ∈ (prefs.foldl (updateStep u) acc).2, 1 ≤ r.id) := by
  intro prefs
  induction prefs with
  | nil => intro acc h; exact ⟨by simp [upsertsOf], h⟩
  | cons p ps ih =>
    intro acc h
    rw [List.foldl_cons]
    rcases p with ⟨ptype, pv⟩
    cases pv with
    | dict entries =>
      have hstep : updateStep u acc (ptype, PyVal.dict entries)
          = entries.foldl (fun acc2 e => upsertOne u ptype e.1 (PyVal.atom e.2) acc2)
              acc := rfl
      rw [hstep]
      rcases foldl_upsert u ptype entries acc h with ⟨h1, h2⟩
      rcases ih _ h2 with ⟨h3, h4⟩
      refine ⟨?_, h4⟩
      rw [h3, h1]
      have hcnt : upsertsOf ((ptype, PyVal.dict entries) :: ps)
          = entries.length + upsertsOf ps := by
        simp [upsertsOf]
      rw [hcnt]
      omega
    | atom n =>
      have hstep : updateStep u acc (ptype, PyVal.atom n)
          = upsertOne u ptype (pystr "default") (PyVal.atom n) acc := rfl
      rw [hstep, upsertOne_eq u ptype (pystr "default") (PyVal.atom n) acc h]
      have h' : ∀ r ∈ ((acc.1 + 1,
          (saveUserPreference acc.2 u ptype (pystr "default") (PyVal.atom n)).2) :
            Nat × List PrefRow).2, 1 ≤ r.id :=
        save_ids_pos acc.2 u ptype (pystr "default") (PyVal.atom n) h
      rcases ih _ h' with ⟨h3, h4⟩
      refine ⟨?_, h4⟩
      rw [h3]
      have hcnt : upsertsOf ((ptype, PyVal.atom n) :: ps) = 1 + upsertsOf ps := by
        simp [upsertsOf]
      rw [hcnt]
      show acc.1 + 1 + upsertsOf ps = acc.1 + (1 + upsertsOf ps)
      omega

/-- C8: saving the same (type, key, value) twice is idempotent and, from a
table holding at most one row for the (username, type, key) triple, leaves
exactly one row with the latest value; `update_preferences` returns true
iff at least one upsert was performed (all upserts succeed in this model,
and every returned id is positive, hence truthy). -/
theorem preferenceUpsert_spec :
    (∀ (db : List PrefRow) (u t k : List Nat) (v : PyVal),
      ((db.filter (prefMatches u t k)).length ≤ 1) →
      (saveUserPreference (saveUserPreference db u t k v).2 u t k v).2
        = (saveUserPreference db u t k v).2
      ∧ ((saveUserPreference db u t k v).2.filter (prefMatches u t k)).length = 1
      ∧ (∀ r ∈ (saveUserPreference db u t k v).2.filter (prefMatches u t k),
          r.pvalue = v))
  ∧ (∀ (db : List PrefRow) (u : List Nat) (prefs : List (List Nat × PyVal)),
      (∀ r ∈ db, 1 ≤ r.id) →
      ((updatePreferences db u prefs).1 = true ↔ 0 < upsertsOf prefs)) := by
  constructor
  · intro db u t k v hdb
    cases hfil : db.filter (prefMatches u t k) with
    | nil =>
      have hs1 := save_eq_insert db u t k v hfil
      have hfil1 := filter_append_insert db u t k v hfil
      refine ⟨?_, ?_, ?_⟩
      · rw [hs1]
        show (saveUserPreference (db ++ [insertedRow db u t k v]) u t k v).2
          = db ++ [insertedRow db u t k v]
        rw [save_eq_update (db ++ [insertedRow db u t k v]) u t k v
            (insertedRow db u t k v) [] hfil1]
        show (db ++ [insertedRow db u t k v]).map
            (fun r => if r.id = (insertedRow db u t k v).id then { r with pvalue := v }
              else r)
          = db ++ [insertedRow db u t k v]
        apply map_eq_self
        intro a ha
        rcases List.mem_append.mp ha with ha' | ha'
        · rw [if_neg]
          intro hEq
          have hlt := mem_id_lt_next db a ha'
          rw [show (insertedRow db u t k v).id = nextPrefId db from rfl] at hEq
          omega
        · rw [List.mem_singleton.mp ha', if_pos rfl]
          rfl
      · rw [hs1]
        show ((db ++ [insertedRow db u t k v]).filter (prefMatches u t k)).length = 1
        rw [hfil1]
        rfl
      · rw [hs1]
        show ∀ r ∈ (db ++ [insertedRow db u t k v]).filter (prefMatches u t k),
          r.pvalue = v
        rw [hfil1]
        intro r hr
        rw [List.mem_singleton.mp hr]
        rfl
    | cons e rest =>
      have hrest : rest = [] := by
        rw [hfil] at hdb
        rw [List.length_cons] at hdb
        exact List.length_eq_zero.mp (by omega)
      rw [hrest] at hfil
      have hs1 := save_eq_update db u t k v e [] hfil
      refine ⟨?_, ?_, ?_⟩
      · rw [hs1]
        show (saveUserPreference
            (db.map (fun r => if r.id = e.id then { r with pvalue := v } else r))
            u t k v).2
          = db.map (fun r => if r.id = e.id then { r with pvalue := v } else r)
        rw [save_after_update db u t k v e hfil]
      · rw [hs1]
        show ((db.map (fun r => if r.id = e.id then { r with pvalue := v } else r)).filter
            (prefMatches u t k)).length = 1
        rw [update_map_filter db u t k v e hfil]
        rfl
      · rw [hs1]
        show ∀ r ∈ (db.map
            (fun r => if r.id = e.id then { r with pvalue := v } else r)).filter
            (prefMatches u t k), r.pvalue = v
        rw [update_map_filter db u t k v e hfil]
        intro r hr
        rw [List.mem_singleton.mp hr]
  · intro db u prefs h
    rcases foldl_updateStep u prefs (0, db) h with ⟨h1, -⟩
    show decide (0 < (prefs.foldl (updateStep u) (0, db)).1) = true ↔ 0 < upsertsOf prefs
    rw [h1]
    simp

/-- Witness for C8: an empty table, one scalar preference. -/
theorem preferenceUpsert_spec_witness :
    ((([] : List PrefRow).filter
        (prefMatches (pystr "alice") (pystr "spending_category") (pystr "coffee"))).length
      ≤ 1)
  ∧ ((saveUserPreference
        (saveUserPreference [] (pystr "alice") (pystr "spending_category")
          (pystr "coffee") (PyVal.atom 1)).2
        (pystr "alice") (pystr "spending_category") (pystr "coffee") (PyVal.atom 1)).2
      = (saveUserPreference [] (pystr "alice") (pystr "spending_category")
          (pystr "coffee") (PyVal.atom 1)).2
     ∧ ((saveUserPreference [] (pystr "alice") (pystr "spending_category")
          (pystr "coffee") (PyVal.atom 1)).2.filter
          (prefMatches (pystr "alice") (pystr "spending_category") (pystr "coffee"))).length
        = 1
     ∧ (∀ r ∈ (saveUserPreference [] (pystr "alice") (pystr "spending_category")
          (pystr "coffee") (PyVal.atom 1)).2.filter
          (prefMatches (pystr "alice") (pystr "spending_category") (pystr "coffee")),
        r.pvalue = PyVal.atom 1))
  ∧ ((updatePreferences [] (pystr "alice")
        [(pystr "notifications", PyVal.atom 2)]).1 = true
      ↔ 0 < upsertsOf [(pystr "notifications", PyVal.atom 2)]) :=
  ⟨by decide,
   preferenceUpsert_spec.1 [] (pystr "alice") (pystr "spending_category")
     (pystr "coffee") (PyVal.atom 1) (by decide),
   preferenceUpsert_spec.2 [] (pystr "alice")
     [(pystr "notifications", PyVal.atom 2)] (by decide)⟩
